import Mathlib

/-!
Verification development for the `chains-listener` repository: a shallow
embedding, in Lean, of the data model and the algorithms of the chain
adapters, the chain manager, the event pipeline and the listener facade,
together with theorems settling the specification claims about them.

Each definition mirrors one function of the TypeScript source; asynchrony
is modelled by explicit parameters (the current time, the current tip) and
thrown exceptions by `Option`/`Except`.  Floating-point fields that no
claim touches (the classification confidence) are omitted.
-/

set_option maxRecDepth 100000

namespace ChainsListener

/-- The `ChainType` enum of `src/types/events.ts`; the string value of each
tag is the one used in event ids. -/
inductive ChainType
  | ethereum
  | bsc
  | solana
  | sui
  | bitcoin
  | trx
  deriving DecidableEq, Repr

/-- String value of a `ChainType` tag (the TS enum values). -/
def ChainType.tag : ChainType → String
  | .ethereum => "ethereum"
  | .bsc => "bsc"
  | .solana => "solana"
  | .sui => "sui"
  | .bitcoin => "bitcoin"
  | .trx => "trx"

/-- The `EventType` enum of `src/types/events.ts`. -/
inductive EventType
  | transfer
  | token_mint
  | token_burn
  | contract_creation
  | native_transfer
  | nft_transfer
  | nft_mint
  deriving DecidableEq, Repr

/-- The `EventData` payload of a `BlockchainEvent` (optional fields of
`src/types/events.ts`; `from`/`to` are renamed `fromAddr`/`toAddr` because
`from` is reserved in Lean; the free-form `metadata` map is omitted as no
claim reads it). -/
structure EventData where
  fromAddr : Option String := none
  toAddr : Option String := none
  amount : Option String := none
  tokenAddress : Option String := none
  tokenDecimals : Option Nat := none
  minter : Option String := none
  gasUsed : Option String := none
  gasPrice : Option String := none
  fee : Option String := none
  deriving DecidableEq, Repr

/-- The canonical `BlockchainEvent` record (`src/types/events.ts`).
`confirmationCount` is an `Int` because the source computes it as a
subtraction of JS numbers that nothing clamps at zero. -/
structure BlockchainEvent where
  id : String
  chainType : ChainType
  eventType : EventType
  blockNumber : Nat
  transactionHash : String
  timestamp : Nat
  confirmed : Bool
  confirmationCount : Int
  data : EventData
  deriving DecidableEq, Repr

/-- `IChainAdapter.generateEventId` (chain-adapter.interface):
`<chain>_<txHash>` with an optional `_<logIndex>` suffix. -/
def generateEventId (chainType : ChainType) (txHash : String)
    (logIndex : Option Nat) : String :=
  let suffix := match logIndex with
    | some i => "_" ++ toString i
    | none => ""
  chainType.tag ++ "_" ++ txHash ++ suffix

/-- `Map.set(x.id, x)` on an insertion-ordered association list: an
existing entry with the same id is overwritten in place, otherwise the
component is appended. -/
def setById (getId : α → String) (l : List α) (x : α) : List α :=
  if l.any (fun y => getId y == getId x) then
    l.map (fun y => if getId y == getId x then x else y)
  else l ++ [x]

/-! ## Solana adapter: mint-supply monitoring (`SolanaAdapter`)

The repository holds two Solana adapter variants.  The one embedded in
`src/config.d.ts` implements the mint-supply detector:
`setupTokenMintMonitoring` subscribes `handleMintAccountChange` on mint
accounts (SPL or Token-2022 owner), which diffs the freshly fetched
supply against `tokenMetadataCache` and emits a `token_mint` iff the
supply increased, then updates the cache.  The `src/chains-listener.ts`
variant instead has a placeholder `handleTokenAccountChange` that emits
`amount: "0"` unconditionally; both are embedded below. -/

/-- What the raw data of an SPL mint account encodes on chain.  Neither
handler parses these bytes (the detector variant re-fetches the mint via
`getMint`); only the presence of `data` gates the handlers. -/
structure SplMintAccountData where
  supply : Nat
  decimals : Nat
  deriving DecidableEq, Repr

/-- The `accountInfo` object delivered by an account-change subscription:
the handlers only test `accountInfo?.data` for presence. -/
structure SolAccountInfo where
  data : Option SplMintAccountData
  lamports : Nat
  deriving DecidableEq, Repr

/-- The `TokenMetadata` cache entry of the detector variant
(`src/config.d.ts`): what `convertMintToMetadata` keeps of a fetched
`Mint`. -/
structure TokenMetadata where
  mint : String
  decimals : Nat
  supply : Nat
  mintAuthority : Option String
  freezeAuthority : Option String
  isInitialized : Bool
  deriving DecidableEq, Repr

/-- `SolanaAdapter.handleTokenAccountChange` of the `src/chains-listener.ts`
variant: a placeholder that, whenever `accountInfo?.data` is present,
emits a `token_mint` event with `amount: "0"` and `confirmationCount: 1`
without reading the supply.  Kept alongside the detector variant below;
the claims are settled against the detector. -/
def handleTokenAccountChange (targetAddress publicKey : String)
    (accountInfo : Option SolAccountInfo) (slot : Nat) (emittedAt : Nat) :
    Option BlockchainEvent :=
  match accountInfo with
  | none => none
  | some info =>
    match info.data with
    | none => none
    | some _ =>
      some
        { id := generateEventId .solana
            (toString slot ++ "_" ++ publicKey ++ "_token") none
          chainType := .solana
          eventType := .token_mint
          blockNumber := slot
          transactionHash := "token_change_" ++ publicKey ++ "_" ++ toString slot
          timestamp := emittedAt
          confirmed := true
          confirmationCount := 1
          data :=
            { tokenAddress := some publicKey
              toAddr := some targetAddress
              amount := some "0" } }

/-- Decimal digits of a natural number, padded with leading zeros to
`width` characters (`String.prototype.padStart`). -/
def padLeftZeros (width : Nat) (s : String) : String :=
  String.mk (List.replicate (width - s.length) '0') ++ s

/-- Drop trailing `'0'` characters (`replace(/0+$/, "")`). -/
def dropTrailingZeros (s : String) : String :=
  String.mk (s.toList.reverse.dropWhile (· == '0')).reverse

/-- `SolanaAdapter.formatTokenAmount` (detector variant): the raw
base-unit amount as a decimal with `decimals` fractional digits,
trailing zeros trimmed, the fractional part dropped entirely when it is
zero. -/
def formatTokenAmount (amount : Nat) (decimals : Nat) : String :=
  let divisor := 10 ^ decimals
  let wholePart := amount / divisor
  let fractionalPart := amount % divisor
  if fractionalPart == 0 then toString wholePart
  else toString wholePart ++ "." ++
    dropTrailingZeros (padLeftZeros decimals (toString fractionalPart))

/-- `Map.set` on the `tokenMetadataCache` association list: the first (and
in a Map, only) entry with the written key is replaced in place, a missing
key is appended. -/
def cacheSet (l : List (String × TokenMetadata)) (k : String)
    (v : TokenMetadata) : List (String × TokenMetadata) :=
  match l with
  | [] => [(k, v)]
  | (kp, vp) :: rest =>
    if kp == k then (k, v) :: rest else (kp, vp) :: cacheSet rest k v

/-- `SolanaAdapter.handleMintAccountChange` (detector variant): returns the
emitted event (if any) and the updated `tokenMetadataCache`.  `fetchedMint`
stands for `getMintInfo(mintPublicKey)` — the mint freshly fetched via
`getMint`, trying the SPL token program and falling back to Token-2022;
`none` is both programs failing (the handler then returns with the cache
untouched).  With a cached previous entry whose supply is below the
fetched supply, a `token_mint` is emitted whose amount is the supply
difference formatted with the mint's decimals; the cache entry is then
set to the fetched metadata in every fetched case. -/
def handleMintAccountChange (targetAddress mintPublicKey : String)
    (accountInfo : Option SolAccountInfo)
    (fetchedMint : Option TokenMetadata)
    (tokenMetadataCache : List (String × TokenMetadata))
    (slot : Nat) (emittedAt : Nat) :
    Option BlockchainEvent × List (String × TokenMetadata) :=
  match accountInfo with
  | none => (none, tokenMetadataCache)
  | some info =>
    match info.data with
    | none => (none, tokenMetadataCache)
    | some _ =>
      match fetchedMint with
      | none => (none, tokenMetadataCache)
      | some mintInfo =>
        let previousMetadata := tokenMetadataCache.lookup mintPublicKey
        let ev : Option BlockchainEvent :=
          match previousMetadata with
          | some prev =>
            if prev.supply < mintInfo.supply then
              some
                { id := generateEventId .solana
                    (toString slot ++ "_" ++ mintPublicKey ++ "_mint") none
                  chainType := .solana
                  eventType := .token_mint
                  blockNumber := slot
                  transactionHash :=
                    "mint_" ++ mintPublicKey ++ "_" ++ toString slot
                  timestamp := emittedAt
                  confirmed := true
                  confirmationCount := 1
                  data :=
                    { tokenAddress := some mintPublicKey
                      toAddr := some targetAddress
                      amount := some (formatTokenAmount
                        (mintInfo.supply - prev.supply) mintInfo.decimals)
                      tokenDecimals := some mintInfo.decimals
                      minter := mintInfo.mintAuthority } }
            else none
          | none => none
        (ev, cacheSet tokenMetadataCache mintPublicKey mintInfo)

/-- The cached mint state of the spec's scenario 3: supply 1000,
decimals 2. -/
def cexMintPrev : TokenMetadata :=
  { mint := "mintX", decimals := 2, supply := 1000,
    mintAuthority := some "auth", freezeAuthority := none,
    isInitialized := true }

/-- The freshly fetched mint state of the spec's scenario 3: supply 1500,
decimals 2. -/
def cexMintFetched : TokenMetadata :=
  { mint := "mintX", decimals := 2, supply := 1500,
    mintAuthority := some "auth", freezeAuthority := none,
    isInitialized := true }

/-! ## EVM adapter: Transfer-log parsing (`EVMChainAdapter`) -/

/-- `keccak256("Transfer(address,address,uint256)")`, the constant
`ERC20_TRANSFER_TOPIC` of the EVM adapter. -/
def ERC20_TRANSFER_TOPIC : String :=
  "0xddf252ad1be2c89b69c2b068fc378daa952ba7f163c4a11628f55a4df523b3ef"

/-- An ethers `Log` restricted to the fields the adapter reads. -/
structure EvmLog where
  address : String
  topics : List String
  data : String
  blockNumber : Nat
  transactionHash : String
  index : Nat
  deriving DecidableEq, Repr

def isHexDigit (c : Char) : Bool :=
  ('0' ≤ c && c ≤ '9') || ('a' ≤ c && c ≤ 'f') || ('A' ≤ c && c ≤ 'F')

def hexVal (c : Char) : Nat :=
  if '0' ≤ c ∧ c ≤ '9' then c.toNat - '0'.toNat
  else if 'a' ≤ c ∧ c ≤ 'f' then c.toNat - 'a'.toNat + 10
  else if 'A' ≤ c ∧ c ≤ 'F' then c.toNat - 'A'.toNat + 10
  else 0

/-- `ethers.getBigInt` on a `0x`-prefixed hex string; `none` models the
throw on anything else. -/
def parseHex0x (s : String) : Option Nat :=
  match s.toList with
  | '0' :: 'x' :: ds =>
    if ds.isEmpty then none
    else if ds.all isHexDigit then
      some (ds.foldl (fun v c => v * 16 + hexVal c) 0)
    else none
  | _ => none

/-- `ethers.getAddress("0x" + topic.slice(26))`: extracts the low 20 bytes
of a 32-byte topic and validates them; `none` models the throw.  EIP-55
re-checksumming only changes the letter case of the result and is omitted
(no claim depends on the case of an address). -/
def topicToAddress (topic : String) : Option String :=
  let s := topic.toList.drop 26
  if s.length == 40 && s.all isHexDigit then
    some (String.mk ('0' :: 'x' :: s))
  else none

/-- `EVMChainAdapter.decodeTransferLog`. -/
def decodeTransferLog (log : EvmLog) :
    Option (String × String × String) :=
  if log.topics.getD 0 "" != ERC20_TRANSFER_TOPIC then none
  else
    match log.topics.getD 1 "" |> topicToAddress,
        log.topics.getD 2 "" |> topicToAddress, parseHex0x log.data with
    | some fromAddr, some toAddr, some amount =>
        some (fromAddr, toAddr, toString amount)
    | _, _, _ => none

/-- `EVMChainAdapter.isEventConfirmed`: `currentTip − blockNumber ≥
blockConfirmationCount`, as a signed comparison (JS numbers). -/
def isEventConfirmed (currentBlockNumber : Nat)
    (blockConfirmationCount : Nat) (blockNumber : Nat) : Bool :=
  (currentBlockNumber : Int) - (blockNumber : Int) ≥
    (blockConfirmationCount : Int)

/-- `EVMChainAdapter.parseLogToTransferEvent`.  `currentBlockNumber` is the
adapter's cached tip; `blockTimestamp` is `getBlockInfo(...).timestamp`
(the source hard-codes that helper's `gasUsed`/`gasPrice` to `"0"`). -/
def parseLogToTransferEvent (chainType : ChainType)
    (currentBlockNumber blockConfirmationCount blockTimestamp : Nat)
    (log : EvmLog) : Option BlockchainEvent :=
  match decodeTransferLog log with
  | none => none
  | some (fromAddr, toAddr, amount) =>
    some
      { id := generateEventId chainType log.transactionHash (some log.index)
        chainType := chainType
        eventType := .transfer
        blockNumber := log.blockNumber
        transactionHash := log.transactionHash
        timestamp := blockTimestamp * 1000
        confirmed := isEventConfirmed currentBlockNumber
          blockConfirmationCount log.blockNumber
        confirmationCount :=
          (currentBlockNumber : Int) - (log.blockNumber : Int)
        data :=
          { fromAddr := some fromAddr
            toAddr := some toAddr
            amount := some amount
            tokenAddress := some log.address
            gasUsed := some "0"
            gasPrice := some "0" } }

/-- A well-formed Transfer log observed at block 101 while the adapter's
cached tip is still 100. -/
def lateLog : EvmLog :=
  { address := "0xtoken"
    topics :=
      [ ERC20_TRANSFER_TOPIC
      , "0x0000000000000000000000001111111111111111111111111111111111111111"
      , "0x0000000000000000000000002222222222222222222222222222222222222222" ]
    data := "0x0de0b6b3a7640000"
    blockNumber := 101
    transactionHash := "0xabc"
    index := 0 }

/-! ## Event pipeline (`src/events/event-processor.interface.ts`) -/

/-- Result of one `filter.apply(event)` call: `pass`/`reject` are the two
boolean returns; `err` models a thrown exception. -/
inductive FilterOutcome
  | pass
  | reject
  | err
  deriving DecidableEq, Repr

/-- An `EventFilter`: id, enabled flag, integer priority and the predicate. -/
structure EventFilter where
  id : String
  enabled : Bool
  priority : Int
  apply : BlockchainEvent → FilterOutcome

/-- An `EventEnricher`; `none` from `enrich` models a thrown exception
(the pipeline then keeps the event unchanged). -/
structure EventEnricher where
  id : String
  enabled : Bool
  enrich : BlockchainEvent → Option BlockchainEvent

/-- One entry of a `ProcessedEvent.notifications` list. -/
structure NotificationResult where
  channel : String
  success : Bool
  timestamp : Nat
  error : Option String := none
  retryCount : Nat
  deriving DecidableEq, Repr

/-- `EventClassification`; the `confidence` number (a JS float) is omitted:
no claim reads it. -/
structure EventClassification where
  category : String
  tags : List String
  deriving DecidableEq, Repr

/-- `EventMetadata` of a `ProcessedEvent` (the free-form `enrichments` map
is omitted: no claim reads it). -/
structure EventMetadata where
  correlationId : String
  processingDuration : Nat
  filters : List String
  classification : EventClassification
  deriving DecidableEq, Repr

/-- The `ProcessedEvent` record of `src/types/events.ts`. -/
structure ProcessedEvent where
  id : String
  originalEvent : BlockchainEvent
  processed : Bool
  processedAt : Nat
  notifications : List NotificationResult
  metadata : EventMetadata
  deriving DecidableEq, Repr

/-- An `EventProcessor`; `none` from `process` models a thrown exception. -/
structure EventProcessor where
  id : String
  enabled : Bool
  process : BlockchainEvent → Option ProcessedEvent

/-- An `EventNotifier`; `notify` returns the outcome of the whole call,
internal retries included: `Except.error msg` models the exception that
escapes when the notifier gives up. -/
structure EventNotifier where
  id : String
  enabled : Bool
  notify : ProcessedEvent → Except String Unit

/-- The `EventPipeline` state: each JS `Map` keyed by component id is an
insertion-ordered list whose ids are kept unique by `setById`. -/
structure Pipeline where
  filters : List EventFilter
  enrichers : List EventEnricher
  processors : List EventProcessor
  notifiers : List EventNotifier

/-- `EventPipeline.addFilter`: `this.filters.set(filter.id, filter)`. -/
def addFilter (p : Pipeline) (f : EventFilter) : Pipeline :=
  { p with filters := setById (fun g => g.id) p.filters f }

/-- `EventPipeline.addEnricher`. -/
def addEnricher (p : Pipeline) (en : EventEnricher) : Pipeline :=
  { p with enrichers := setById (fun g => g.id) p.enrichers en }

/-- `EventPipeline.addProcessor`. -/
def addProcessor (p : Pipeline) (pr : EventProcessor) : Pipeline :=
  { p with processors := setById (fun g => g.id) p.processors pr }

/-- `EventPipeline.addNotifier`. -/
def addNotifier (p : Pipeline) (n : EventNotifier) : Pipeline :=
  { p with notifiers := setById (fun g => g.id) p.notifiers n }

/-- Stable insertion of a filter into a list already sorted by strictly
descending-or-equal priority: earlier-registered filters stay ahead of
equal-priority ones, as JS's stable `sort((a, b) => b.priority - a.priority)`
guarantees. -/
def insertByPriorityDesc (f : EventFilter) :
    List EventFilter → List EventFilter
  | [] => [f]
  | g :: gs =>
    if f.priority < g.priority then g :: insertByPriorityDesc f gs
    else f :: g :: gs

/-- The stable descending sort `Array.from(filters.values())
.sort((a, b) => b.priority - a.priority)`. -/
def sortByPriorityDesc : List EventFilter → List EventFilter
  | [] => []
  | f :: fs => insertByPriorityDesc f (sortByPriorityDesc fs)

/-- The filter chain `applyFilters` walks: enabled filters in descending
priority order. -/
def activeFilters (p : Pipeline) : List EventFilter :=
  sortByPriorityDesc (p.filters.filter (fun f => f.enabled))

/-- `EventPipeline.applyFilters`, instrumented with the list of filter ids
whose `apply` was actually invoked: the walk stops at the first `reject`
or thrown error (both yield `false`). -/
def applyFiltersTrace (e : BlockchainEvent) :
    List EventFilter → Bool × List String
  | [] => (true, [])
  | f :: fs =>
    match f.apply e with
    | .pass =>
      let r := applyFiltersTrace e fs
      (r.1, f.id :: r.2)
    | _ => (false, [f.id])

/-- Enabled enrichers in insertion order. -/
def activeEnrichers (p : Pipeline) : List EventEnricher :=
  p.enrichers.filter (fun en => en.enabled)

/-- `EventPipeline.applyEnrichments`, instrumented with the ids run: each
enabled enricher transforms the event in insertion order; a throwing
enricher is logged and the event passes through unchanged. -/
def applyEnrichmentsTrace (e : BlockchainEvent) :
    List EventEnricher → BlockchainEvent × List String
  | [] => (e, [])
  | en :: ens =>
    let e2 := (en.enrich e).getD e
    let r := applyEnrichmentsTrace e2 ens
    (r.1, en.id :: r.2)

/-- `EventPipeline.createDefaultProcessedEvent` (classification
`medium_value`; its JS-float confidence 0.5 is omitted). -/
def createDefaultProcessedEvent (p : Pipeline) (e : BlockchainEvent)
    (correlationId : String) (startTime now : Nat) : ProcessedEvent :=
  { id := "processed_" ++ e.id
    originalEvent := e
    processed := true
    processedAt := now
    notifications := []
    metadata :=
      { correlationId := correlationId
        processingDuration := now - startTime
        filters := p.filters.map (fun f => f.id)
        classification := { category := "medium_value", tags := [] } } }

/-- The first-success walk inside `EventPipeline.processEvent`,
instrumented with the ids of the processors tried. -/
def processorsFirstSuccess (e : BlockchainEvent) :
    List EventProcessor → Option ProcessedEvent × List String
  | [] => (none, [])
  | pr :: prs =>
    match pr.process e with
    | some pe => (some pe, [pr.id])
    | none =>
      let r := processorsFirstSuccess e prs
      (r.1, pr.id :: r.2)

/-- `EventPipeline.processEvent`: no enabled processor — or every enabled
processor throwing — yields the default ProcessedEvent. -/
def processEvent (p : Pipeline) (e : BlockchainEvent)
    (correlationId : String) (startTime now : Nat) :
    ProcessedEvent × List String :=
  let act := p.processors.filter (fun pr => pr.enabled)
  if act.isEmpty then
    (createDefaultProcessedEvent p e correlationId startTime now, [])
  else
    let r := processorsFirstSuccess e act
    ((r.1).getD (createDefaultProcessedEvent p e correlationId startTime now),
      r.2)

/-- Enabled notifiers in insertion order. -/
def activeNotifiers (p : Pipeline) : List EventNotifier :=
  p.notifiers.filter (fun n => n.enabled)

/-- The `notifications` entry `sendNotifications` pushes for one notifier:
success and failure both record `retryCount: 0` (the literal in the
source). -/
def notificationEntry (now : Nat) (pe : ProcessedEvent)
    (n : EventNotifier) : NotificationResult :=
  match n.notify pe with
  | .ok _ => { channel := n.id, success := true, timestamp := now,
               error := none, retryCount := 0 }
  | .error msg => { channel := n.id, success := false, timestamp := now,
                    error := some msg, retryCount := 0 }

/-- `EventPipeline.sendNotifications`: the fan-out starts every enabled
notifier against the event as it stands at fan-out time and appends one
outcome entry per notifier; `Promise.allSettled` means no failure aborts
the others.  Entries are modelled in registration order (the source order
is completion order, which no claim relies on). -/
def sendNotifications (p : Pipeline) (pe : ProcessedEvent) (now : Nat) :
    ProcessedEvent :=
  { pe with notifications :=
      pe.notifications ++ (activeNotifiers p).map (notificationEntry now pe) }

/-- The observable outcome of one `EventPipeline.execute` call, with the
component ids invoked at each stage. -/
structure ExecResult where
  result : Option ProcessedEvent
  filtersEvaluated : List String
  enrichersRun : List String
  processorsTried : List String
  notifiersRun : List String

/-- `EventPipeline.execute`: filters gate, then enrichment, processing and
notification fan-out; a rejected event short-circuits to `null` with no
later stage running. -/
def execute (p : Pipeline) (e : BlockchainEvent) (correlationId : String)
    (startTime now : Nat) : ExecResult :=
  let fr := applyFiltersTrace e (activeFilters p)
  if fr.1 then
    let er := applyEnrichmentsTrace e (activeEnrichers p)
    let pr := processEvent p er.1 correlationId startTime now
    let pe2 := sendNotifications p pr.1 now
    { result := some pe2
      filtersEvaluated := fr.2
      enrichersRun := er.2
      processorsTried := pr.2
      notifiersRun := (activeNotifiers p).map (fun n => n.id) }
  else
    { result := none
      filtersEvaluated := fr.2
      enrichersRun := []
      processorsTried := []
      notifiersRun := [] }

/-- The loop of `BaseEventNotifier.retryOperation`: `attempt` is the
0-based loop index, `rem` the iterations left (`retryAttempts − attempt`),
`lastE` the last error.  Returns the outcome, the number of attempts made
and the list of back-off delays slept. -/
def notifierRetryGo (retryAttempts retryDelay : Nat)
    (op : Nat → Except String Unit) (context : String) :
    Nat → Nat → Option String → Except String Unit × Nat × List Nat
  | _, 0, lastE =>
    (.error (context ++ " failed after " ++ toString retryAttempts ++
      " attempts: " ++ lastE.getD "undefined"), 0, [])
  | attempt, rem + 1, _ =>
    match op attempt with
    | .ok u => (.ok u, 1, [])
    | .error msg =>
      let r := notifierRetryGo retryAttempts retryDelay op context
        (attempt + 1) rem (some msg)
      if attempt + 1 < retryAttempts then
        (r.1, r.2.1 + 1, retryDelay * 2 ^ attempt :: r.2.2)
      else
        (r.1, r.2.1 + 1, r.2.2)

/-- `BaseEventNotifier.retryOperation`: at most `retryAttempts` attempts
(loop condition `attempt < retryAttempts`), delay `retryDelay · 2^attempt`
between consecutive attempts, and a context-tagged error once the budget
is exhausted. -/
def notifierRetryOperation (retryAttempts retryDelay : Nat)
    (op : Nat → Except String Unit) (context : String) :
    Except String Unit × Nat × List Nat :=
  notifierRetryGo retryAttempts retryDelay op context 0 retryAttempts none

/-- The loop of `IChainAdapter.retry` (chain-adapter.interface): the loop
condition is `attempt <= maxRetryAttempts`, so `rem` starts at
`maxRetryAttempts + 1`; the delay before the next attempt is
`min(1000 · 2^attempt, 30000)` and is slept only while
`attempt < maxRetryAttempts`. -/
def adapterRetryGo (maxRetryAttempts : Nat) (op : Nat → Except String α)
    (context : String) :
    Nat → Nat → Option String → Except String α × Nat × List Nat
  | _, 0, lastE =>
    (.error (context ++ " failed after " ++ toString maxRetryAttempts ++
      " attempts: " ++ lastE.getD "undefined"), 0, [])
  | attempt, rem + 1, _ =>
    match op attempt with
    | .ok v => (.ok v, 1, [])
    | .error msg =>
      let r := adapterRetryGo maxRetryAttempts op context
        (attempt + 1) rem (some msg)
      if attempt < maxRetryAttempts then
        (r.1, r.2.1 + 1, min (1000 * 2 ^ attempt) 30000 :: r.2.2)
      else
        (r.1, r.2.1 + 1, r.2.2)

/-- `IChainAdapter.retry`: the shared adapter retry wrapper. -/
def adapterRetry (maxRetryAttempts : Nat) (op : Nat → Except String α)
    (context : String) : Except String α × Nat × List Nat :=
  adapterRetryGo maxRetryAttempts op context 0 (maxRetryAttempts + 1) none

/-- A high-priority rejecting filter, registered after a low-priority
passing one. -/
def cexFilterHigh : EventFilter :=
  { id := "high", enabled := true, priority := 10,
    apply := fun _ => FilterOutcome.reject }

def cexFilterLow : EventFilter :=
  { id := "low", enabled := true, priority := 5,
    apply := fun _ => FilterOutcome.pass }

def cexFilterPipeline : Pipeline :=
  { filters := [cexFilterLow, cexFilterHigh], enrichers := [],
    processors := [], notifiers := [] }

/-- A minimal canonical event used by the concrete witnesses. -/
def sampleEvent : BlockchainEvent :=
  { id := "ethereum_0x1", chainType := .ethereum, eventType := .transfer,
    blockNumber := 1, transactionHash := "0x1", timestamp := 0,
    confirmed := true, confirmationCount := 0, data := {} }

/-- Modelled from the spec: the registration the specification describes
for `add_filter`/`add_enricher`/`add_processor`/`add_notifier` — keyed by
id, and registering a component whose id already exists is an error
(`none`); the source's `addFilter` has no such check. -/
def specAddComponentChecked (getId : α → String) (l : List α) (x : α) :
    Option (List α) :=
  if l.any (fun y => getId y == getId x) then none else some (l ++ [x])

/-- Two filters sharing the id `"addr"`. -/
def dupFilterFirst : EventFilter :=
  { id := "addr", enabled := true, priority := 10,
    apply := fun _ => FilterOutcome.pass }

def dupFilterSecond : EventFilter :=
  { id := "addr", enabled := true, priority := 7,
    apply := fun _ => FilterOutcome.reject }

def dupFilterPipeline : Pipeline :=
  { filters := [dupFilterFirst], enrichers := [], processors := [],
    notifiers := [] }

/-- A webhook-style notifier whose operation fails on every attempt: its
`notify` is `retryOperation` around the failing POST, so the call exhausts
the budget of 3 attempts (the `BaseEventNotifier` default) and escapes
with the context-tagged error. -/
def cexNotifierFail : EventNotifier :=
  { id := "webhook", enabled := true,
    notify := fun _ =>
      (notifierRetryOperation 3 1000 (fun _ => Except.error "sink-down")
        "Webhook notification").1 }

/-- A second notifier that succeeds immediately. -/
def cexNotifierOk : EventNotifier :=
  { id := "redis", enabled := true, notify := fun _ => Except.ok () }

def cexNotifierPipeline : Pipeline :=
  { filters := [], enrichers := [], processors := [],
    notifiers := [cexNotifierFail, cexNotifierOk] }

/-- A minimal processed event used by the notification witnesses. -/
def sampleProcessedEvent : ProcessedEvent :=
  { id := "processed_ethereum_0x1", originalEvent := sampleEvent,
    processed := true, processedAt := 0, notifications := [],
    metadata :=
      { correlationId := "cid", processingDuration := 0, filters := [],
        classification := { category := "medium_value", tags := [] } } }

/-! ## Chain manager: health sweep (`ChainManager.performHealthCheck`) -/

/-- The `ConnectionStatus` record of the adapter interface. -/
structure ConnectionStatus where
  connected : Bool
  lastHeartbeat : Nat
  blockHeight : Nat
  syncStatus : String
  errors : List String
  deriving DecidableEq, Repr

/-- The `ChainManagerConfig`. -/
structure ChainManagerConfig where
  maxConcurrentConnections : Nat
  healthCheckInterval : Nat
  reconnectDelay : Nat
  enableAutoReconnect : Bool
  deriving DecidableEq, Repr

/-- `EVMChainAdapter.getConnectionStatus` (the Solana, Sui and Tron
adapters' versions are verbatim the same shape): `lastHeartbeat` is
`Date.now()` — the time of the call, not of the last heartbeat tick. -/
def evmGetConnectionStatus (connected : Bool) (currentBlockNumber : Nat)
    (now : Nat) : ConnectionStatus :=
  { connected := connected
    lastHeartbeat := now
    blockHeight := currentBlockNumber
    syncStatus := if connected then "synced" else "error"
    errors := [] }

/-- `ChainManager.performHealthCheck`: for every adapter status, compute
`now − lastHeartbeat`; when it exceeds `2 · healthCheckInterval` and
auto-reconnect is enabled, emit `chainUnhealthy` and schedule a
reconnection delayed by `reconnectDelay`.  Returns the `(chain, delay)`
pairs scheduled. -/
def performHealthCheck (cfg : ChainManagerConfig) (now : Nat)
    (statuses : List (ChainType × ConnectionStatus)) :
    List (ChainType × Nat) :=
  statuses.filterMap fun cs =>
    if ((now : Int) - (cs.2.lastHeartbeat : Int) >
          2 * (cfg.healthCheckInterval : Int)) ∧
        cfg.enableAutoReconnect = true
    then some (cs.1, cfg.reconnectDelay)
    else none

/-! ## Sui adapter: event classification (`SuiAdapter.determineSuiEventType`) -/

/-- JS `haystack.includes(needle)` on char lists. -/
def hasSubstrAux (needle : List Char) : List Char → Bool
  | [] => needle.isEmpty
  | c :: rest => needle.isPrefixOf (c :: rest) || hasSubstrAux needle rest

/-- JS `s.includes(pat)`. -/
def strIncludes (s pat : String) : Bool :=
  hasSubstrAux pat.toList s.toList

/-- `SuiAdapter.determineSuiEventType`, the classifier of the polling Sui
adapter (the variant whose transfer branch also matches `"PayEvent"`);
`none` models the event being dropped. -/
def determineSuiEventType (t : String) : Option EventType :=
  if strIncludes t "::coin::MintEvent" || strIncludes t "MintEvent" ||
      strIncludes t "Mint" then
    some .token_mint
  else if strIncludes t "::coin::BurnEvent" || strIncludes t "BurnEvent" ||
      strIncludes t "Burn" then
    some .token_burn
  else if strIncludes t "::pay::" || strIncludes t "::coin::" ||
      strIncludes t "Transfer" || strIncludes t "PayEvent" then
    some .transfer
  else if strIncludes t "::package::" || strIncludes t "Publish" then
    some .contract_creation
  else none

/-- The repository's second `determineSuiEventType` (older Sui adapter
variant): coin/Transfer types win first, unknown types default to
`transfer` and nothing is ever dropped. -/
def determineSuiEventTypeLegacy (t : String) : Option EventType :=
  if strIncludes t "::coin::" || strIncludes t "Transfer" then
    some .transfer
  else if strIncludes t "Mint" || strIncludes t "mint" then
    some .token_mint
  else if strIncludes t "Burn" || strIncludes t "burn" then
    some .token_burn
  else some .transfer

/-- Modelled from the spec: the classification cascade exactly as the
claim words it — `::coin::MintEvent`/`Mint` → mint; `BurnEvent`/`Burn` →
burn; `::pay::`/`::coin::`/`Transfer` → transfer; `::package::`/`Publish`
→ contract creation; anything else dropped. -/
def claimSuiClassify (t : String) : Option EventType :=
  if strIncludes t "::coin::MintEvent" || strIncludes t "Mint" then
    some .token_mint
  else if strIncludes t "BurnEvent" || strIncludes t "Burn" then
    some .token_burn
  else if strIncludes t "::pay::" || strIncludes t "::coin::" ||
      strIncludes t "Transfer" then
    some .transfer
  else if strIncludes t "::package::" || strIncludes t "Publish" then
    some .contract_creation
  else none

/-- The claimed cascade amended with the `PayEvent` trigger the source's
transfer branch also matches. -/
def amendedSuiClassify (t : String) : Option EventType :=
  if strIncludes t "Mint" then some .token_mint
  else if strIncludes t "Burn" then some .token_burn
  else if strIncludes t "::pay::" || strIncludes t "::coin::" ||
      strIncludes t "Transfer" || strIncludes t "PayEvent" then
    some .transfer
  else if strIncludes t "::package::" || strIncludes t "Publish" then
    some .contract_creation
  else none

/-! ## Listener facade: event counters (`ChainsListener`) -/

/-- The three counters of `ChainsListener.stats`. -/
structure ListenerStats where
  totalEvents : Nat
  processedEvents : Nat
  failedEvents : Nat
  deriving DecidableEq, Repr

/-- Initial counters. -/
def initialStats : ListenerStats :=
  { totalEvents := 0, processedEvents := 0, failedEvents := 0 }

/-- One outcome of handing an adapter event to `pipeline.execute` in
`ChainManager.setupAdapterListeners`: a non-null result re-emitted as
`eventProcessed`, a thrown error re-emitted as `eventProcessingError`, or
a null result (event rejected by filters) that emits nothing. -/
inductive PipelineOutcome
  | processed
  | failed
  | filtered
  deriving DecidableEq, Repr

/-- The counter updates of `ChainsListener.setupEventListeners`:
`eventProcessed` increments `totalEvents` and `processedEvents`;
`eventProcessingError` increments `totalEvents` and `failedEvents`; a
filtered event fires neither listener. -/
def stepStats (s : ListenerStats) : PipelineOutcome → ListenerStats
  | .processed =>
    { totalEvents := s.totalEvents + 1
      processedEvents := s.processedEvents + 1
      failedEvents := s.failedEvents }
  | .failed =>
    { totalEvents := s.totalEvents + 1
      processedEvents := s.processedEvents
      failedEvents := s.failedEvents + 1 }
  | .filtered => s

/-- The manager's `blockchainEvent` listener feeding the facade counters:
when the pipeline rejects the event (`execute` returns null) neither
counter event fires; a returned ProcessedEvent counts as processed.  (The
error outcome corresponds to `execute` throwing, which the embedding's
total `execute` cannot produce; `stepStats .failed` models that listener
branch.) -/
def managerHandleEvent (p : Pipeline) (correlationId : String)
    (startTime now : Nat) (s : ListenerStats) (e : BlockchainEvent) :
    ListenerStats :=
  match (execute p e correlationId startTime now).result with
  | some _ => stepStats s .processed
  | none => s

/-- The three counters as `ChainsListener.getStats` reports them. -/
def getStatsCounters (s : ListenerStats) : Nat × Nat × Nat :=
  (s.totalEvents, s.processedEvents, s.failedEvents)

/-! ## Tron adapter: address validation (`TronAdapter.validateAddress`) -/

/-- The character class `[A-HJ-NP-Za-km-z1-9]` of the TRON Base58
alphabet. -/
def isBase58Char (c : Char) : Bool :=
  ('A' ≤ c && c ≤ 'H') || ('J' ≤ c && c ≤ 'N') || ('P' ≤ c && c ≤ 'Z') ||
  ('a' ≤ c && c ≤ 'k') || ('m' ≤ c && c ≤ 'z') || ('1' ≤ c && c ≤ '9')

/-- The regex `/^T[A-HJ-NP-Za-km-z1-9]{33}$/`: 34 characters, a leading
`'T'`, the remaining 33 in the Base58 class. -/
def tronBase58Form (s : String) : Bool :=
  s.toList.length == 34 && s.toList.take 1 == ['T'] &&
    (s.toList.drop 1).all isBase58Char

/-- The regex `/^(0x)?[a-fA-F0-9]{40}$/`: 40 hex digits with an optional
`0x` prefix. -/
def tronHexForm (s : String) : Bool :=
  (s.toList.length == 42 && s.toList.take 2 == ['0', 'x'] &&
    (s.toList.drop 2).all isHexDigit) ||
  (s.toList.length == 40 && s.toList.all isHexDigit)

/-- The TRON Base58 alphabet, in digit order. -/
def base58Alphabet : List Char :=
  "123456789ABCDEFGHJKLMNPQRSTUVWXYZabcdefghijkmnopqrstuvwxyz".toList

/-- Digit value of a Base58 character. -/
def b58Val (c : Char) : Nat :=
  base58Alphabet.indexOf c

/-- The integer a Base58 string denotes. -/
def b58Value (cs : List Char) : Nat :=
  cs.foldl (fun v c => v * 58 + b58Val c) 0

/-- Leading `'1'` characters decode to leading zero bytes. -/
def countLeadingOnes : List Char → Nat
  | '1' :: rest => countLeadingOnes rest + 1
  | _ => 0

/-- Number of big-endian bytes of `n` (0 for 0), fuel-driven. -/
def natBytesLenAux : Nat → Nat → Nat
  | 0, _ => 0
  | fuel + 1, n => if n = 0 then 0 else natBytesLenAux fuel (n / 256) + 1

def natBytesLen (n : Nat) : Nat :=
  natBytesLenAux n n

/-- Length of the byte buffer `bs58.decode` returns: one zero byte per
leading `'1'` plus the minimal big-endian bytes of the value. -/
def b58DecodedLen (s : String) : Nat :=
  countLeadingOnes s.toList + natBytesLen (b58Value s.toList)

/-- `TronAdapter.validateAddress` (`src/chains/tron/tron-adapter.ts`):
empty strings fail; a `/^T[base58]{33}$/` match is accepted iff its
Base58 decoding is 25 bytes long (21-byte payload + 4-byte checksum —
the length is checked, the checksum is not); otherwise any
`/^(0x)?[hex]{40}$/` match is accepted. -/
def tronValidateAddress (s : String) : Bool :=
  if s.toList.isEmpty then false
  else if tronBase58Form s then b58DecodedLen s == 25
  else if tronHexForm s then true
  else false

/-! SHA-256, byte-level, used only to state what a *valid* Base58Check
checksum would be (the double-SHA-256 of the 21-byte payload); the
adapter itself never computes it. -/

def M32 : Nat := 4294967296

def rotr32 (x n : Nat) : Nat :=
  ((x >>> n) ||| (x <<< (32 - n))) % M32

def shaSmallSigma0 (x : Nat) : Nat :=
  rotr32 x 7 ^^^ rotr32 x 18 ^^^ (x >>> 3)

def shaSmallSigma1 (x : Nat) : Nat :=
  rotr32 x 17 ^^^ rotr32 x 19 ^^^ (x >>> 10)

def shaBigSigma0 (x : Nat) : Nat :=
  rotr32 x 2 ^^^ rotr32 x 13 ^^^ rotr32 x 22

def shaBigSigma1 (x : Nat) : Nat :=
  rotr32 x 6 ^^^ rotr32 x 11 ^^^ rotr32 x 25

def shaK : List Nat :=
  [1116352408, 1899447441, 3049323471, 3921009573, 961987163,
   1508970993, 2453635748, 2870763221, 3624381080, 310598401,
   607225278, 1426881987, 1925078388, 2162078206, 2614888103,
   3248222580, 3835390401, 4022224774, 264347078, 604807628,
   770255983, 1249150122, 1555081692, 1996064986, 2554220882,
   2821834349, 2952996808, 3210313671, 3336571891, 3584528711,
   113926993, 338241895, 666307205, 773529912, 1294757372,
   1396182291, 1695183700, 1986661051, 2177026350, 2456956037,
   2730485921, 2820302411, 3259730800, 3345764771, 3516065817,
   3600352804, 4094571909, 275423344, 430227734, 506948616,
   659060556, 883997877, 958139571, 1322822218, 1537002063,
   1747873779, 1955562222, 2024104815, 2227730452, 2361852424,
   2428436474, 2756734187, 3204031479, 3329325298]

def shaH0 : List Nat :=
  [1779033703, 3144134277, 1013904242,
   2773480762, 1359893119, 2600822924,
   528734635, 1541459225]

structure ShaState where
  a : Nat
  b : Nat
  c : Nat
  d : Nat
  e : Nat
  f : Nat
  g : Nat
  h : Nat
  deriving Repr

def shaCompressStep (k w : Nat) (s : ShaState) : ShaState :=
  let ch := (s.e &&& s.f) ^^^ ((s.e ^^^ (M32 - 1)) &&& s.g)
  let t1 := (s.h + shaBigSigma1 s.e + ch + k + w) % M32
  let maj := (s.a &&& s.b) ^^^ (s.a &&& s.c) ^^^ (s.b &&& s.c)
  let t2 := (shaBigSigma0 s.a + maj) % M32
  { a := (t1 + t2) % M32, b := s.a, c := s.b, d := s.c,
    e := (s.d + t1) % M32, f := s.e, g := s.f, h := s.g }

/-- Extend 16 message-schedule words to 64. -/
def shaExtend (w0 : Array Nat) : Array Nat :=
  (List.range 48).foldl
    (fun w i =>
      w.push ((w.getD i 0 + shaSmallSigma0 (w.getD (i + 1) 0) +
        w.getD (i + 9) 0 + shaSmallSigma1 (w.getD (i + 14) 0)) % M32))
    w0

def shaCompressBlock (h : List Nat) (blockWords : List Nat) : List Nat :=
  let w := shaExtend (Array.mk blockWords)
  let s0 : ShaState :=
    { a := h.getD 0 0, b := h.getD 1 0, c := h.getD 2 0, d := h.getD 3 0,
      e := h.getD 4 0, f := h.getD 5 0, g := h.getD 6 0, h := h.getD 7 0 }
  let sf := (List.range 64).foldl
    (fun s i => shaCompressStep (shaK.getD i 0) (w.getD i 0) s) s0
  [(h.getD 0 0 + sf.a) % M32, (h.getD 1 0 + sf.b) % M32,
   (h.getD 2 0 + sf.c) % M32, (h.getD 3 0 + sf.d) % M32,
   (h.getD 4 0 + sf.e) % M32, (h.getD 5 0 + sf.f) % M32,
   (h.getD 6 0 + sf.g) % M32, (h.getD 7 0 + sf.h) % M32]

/-- `n` as `width` big-endian bytes. -/
def natToBEBytes (width n : Nat) : List Nat :=
  (List.range width).map (fun i => (n >>> (8 * (width - 1 - i))) % 256)

/-- SHA-256 padding: `0x80`, zeros to 56 mod 64, 8-byte bit length. -/
def shaPad (msg : List Nat) : List Nat :=
  let len := msg.length
  let zeros := (119 - len % 64) % 64
  msg ++ 0x80 :: (List.replicate zeros 0 ++ natToBEBytes 8 (len * 8))

/-- 4 bytes per 32-bit big-endian word. -/
def bytesToWords : List Nat → List Nat
  | b0 :: b1 :: b2 :: b3 :: rest =>
    (((b0 * 256 + b1) * 256 + b2) * 256 + b3) :: bytesToWords rest
  | _ => []

def shaProcessAux : Nat → List Nat → List Nat → List Nat
  | 0, h, _ => h
  | fuel + 1, h, ws =>
    if ws.isEmpty then h
    else shaProcessAux fuel (shaCompressBlock h (ws.take 16)) (ws.drop 16)

/-- SHA-256 of a byte list, as 32 bytes. -/
def sha256Bytes (msg : List Nat) : List Nat :=
  let ws := bytesToWords (shaPad msg)
  let hf := shaProcessAux ws.length shaH0 ws
  hf.foldr (fun w acc => natToBEBytes 4 w ++ acc) []

/-- The bytes `bs58.decode` yields for a valid-alphabet string. -/
def b58DecodedBytes (s : String) : List Nat :=
  List.replicate (countLeadingOnes s.toList) 0 ++
    natToBEBytes (natBytesLen (b58Value s.toList)) (b58Value s.toList)

/-- Modelled from the spec: Base58Check checksum validity — the last 4
decoded bytes equal the first 4 bytes of the double-SHA-256 of the
payload (the source never computes this). -/
def tronChecksumValid (s : String) : Bool :=
  let bytes := b58DecodedBytes s
  let payload := bytes.take (bytes.length - 4)
  let chk := bytes.drop (bytes.length - 4)
  chk == (sha256Bytes (sha256Bytes payload)).take 4

/-- A 34-character `T…` string in the Base58 alphabet whose trailing 4
bytes are not the Base58Check checksum of its payload. -/
def tronBadChecksumAddr : String := "T111111111111111111111111111111111"

/-! ## Theorems settling the claims -/

theorem string_append_assoc (a b c : String) : a ++ b ++ c = a ++ (b ++ c) := by
  apply String.ext
  simp

/-- Every generated event id is the chain tag, an underscore, then the rest. -/
theorem generateEventId_chain_tag (c : ChainType) (txHash : String)
    (logIndex : Option Nat) :
    ∃ rest, generateEventId c txHash logIndex = c.tag ++ "_" ++ rest := by
  cases logIndex with
  | none => exact ⟨txHash ++ "", by simp [generateEventId, string_append_assoc]⟩
  | some i =>
      exact ⟨txHash ++ ("_" ++ toString i),
        by simp [generateEventId, string_append_assoc]⟩

/-- Looking up the key just written by `cacheSet` yields the written
value. -/
theorem lookup_cacheSet (k : String) (v : TokenMetadata) :
    ∀ l : List (String × TokenMetadata),
    (cacheSet l k v).lookup k = some v := by
  intro l
  induction l with
  | nil => simp [cacheSet, List.lookup]
  | cons p rest ih =>
    rcases p with ⟨kp, vp⟩
    by_cases hk : kp = k
    · have h1 : (kp == k) = true := beq_iff_eq.mpr hk
      simp [cacheSet, h1, List.lookup]
    · have h1 : (kp == k) = false := beq_eq_false_iff_ne.mpr hk
      have h2 : (k == kp) = false := beq_eq_false_iff_ne.mpr (Ne.symm hk)
      simp [cacheSet, h1, h2, List.lookup, ih]

/-- C1: for a monitored mint account with cached supply `s₀` and decimals
`d`, when an account change delivers data and the freshly fetched mint
has supply `s₁` (a mint's decimals are immutable, so again `d`), the
detector emits a `token_mint` event iff `s₁ > s₀`, its amount is
`s₁ − s₀` formatted with `d` decimals (with `tokenDecimals = d`), and the
cache entry is updated to the fetched metadata carrying supply `s₁`. -/
theorem mint_supply_diff_detector (targetAddress mintKey : String)
    (info : SolAccountInfo) (prev fetched : TokenMetadata)
    (cache : List (String × TokenMetadata)) (slot now : Nat)
    (hdata : info.data.isSome = true)
    (hprev : cache.lookup mintKey = some prev)
    (hdec : fetched.decimals = prev.decimals) :
    ((handleMintAccountChange targetAddress mintKey (some info)
        (some fetched) cache slot now).1.isSome =
      decide (prev.supply < fetched.supply)) ∧
    (∀ e, (handleMintAccountChange targetAddress mintKey (some info)
        (some fetched) cache slot now).1 = some e →
      e.eventType = EventType.token_mint ∧
      e.data.amount = some (formatTokenAmount
        (fetched.supply - prev.supply) prev.decimals) ∧
      e.data.tokenDecimals = some prev.decimals ∧
      e.data.tokenAddress = some mintKey ∧
      e.blockNumber = slot) ∧
    ((handleMintAccountChange targetAddress mintKey (some info)
        (some fetched) cache slot now).2.lookup mintKey = some fetched) := by
  cases hd : info.data with
  | none => rw [hd] at hdata; simp at hdata
  | some d0 =>
    refine ⟨?_, ?_, ?_⟩
    · by_cases hlt : prev.supply < fetched.supply
      · simp [handleMintAccountChange, hd, hprev, hlt]
      · simp [handleMintAccountChange, hd, hprev, hlt]
    · intro e he
      simp only [handleMintAccountChange, hd, hprev] at he
      by_cases hlt : prev.supply < fetched.supply
      · rw [if_pos hlt] at he
        simp only [Option.some.injEq] at he
        subst he
        exact ⟨rfl, by rw [hdec], by rw [hdec], rfl, rfl⟩
      · rw [if_neg hlt] at he
        exact absurd he (by simp)
    · simp only [handleMintAccountChange, hd, hprev]
      exact lookup_cacheSet mintKey fetched cache

/-- Witness for `mint_supply_diff_detector` at the spec's scenario 3:
cache `{supply 1000, decimals 2}`, fetched mint `{supply 1500,
decimals 2}` — a `token_mint` with amount `"5"` and `tokenDecimals 2` is
emitted and the cache entry now carries supply 1500. -/
theorem mint_supply_diff_detector_witness :
    ((handleMintAccountChange "walletTgt" "mintX" (some ⟨some ⟨0, 0⟩, 0⟩)
        (some cexMintFetched) [("mintX", cexMintPrev)] 42 7).1.map
      (fun e => (e.eventType, e.data.amount, e.data.tokenDecimals))) =
      some (EventType.token_mint, some "5", some 2) ∧
    (((handleMintAccountChange "walletTgt" "mintX" (some ⟨some ⟨0, 0⟩, 0⟩)
        (some cexMintFetched) [("mintX", cexMintPrev)] 42 7).2.lookup
      "mintX").map (fun m => m.supply)) = some 1500 := by
  have h := mint_supply_diff_detector "walletTgt" "mintX" ⟨some ⟨0, 0⟩, 0⟩
    cexMintPrev cexMintFetched [("mintX", cexMintPrev)] 42 7
    (by decide) (by decide) (by decide)
  constructor
  · cases heq : (handleMintAccountChange "walletTgt" "mintX"
        (some ⟨some ⟨0, 0⟩, 0⟩) (some cexMintFetched)
        [("mintX", cexMintPrev)] 42 7).1 with
    | none =>
      have h1 := h.1
      rw [heq] at h1
      exact absurd h1 (by decide)
    | some e =>
      obtain ⟨het, ham, hdecs, _, _⟩ := h.2.1 e heq
      show some (e.eventType, e.data.amount, e.data.tokenDecimals) =
        some (EventType.token_mint, some "5", some 2)
      rw [het, ham, hdecs]
      decide
  · rw [h.2.2]
    decide

/-- C2 counterexample: when a Transfer log from block 101 is processed
while the adapter's cached tip is 100 (the `block` subscription has not yet
updated it), the adapter emits the event with `confirmationCount = -1`:
nothing defers the emission or clamps the count at zero. -/
theorem confirmation_count_counterexample :
    ((parseLogToTransferEvent .ethereum 100 6 1700000000 lateLog).map
      (fun e => e.confirmationCount)) = some (-1) ∧
    ((-1 : Int) ≥ 0) = False ∧
    ((parseLogToTransferEvent .ethereum 100 6 1700000000 lateLog).map
      (fun e => e.id)) = some "ethereum_0xabc_0" := by
  refine ⟨?_, by simp, ?_⟩ <;> decide

/-- C2 amended: every id built by `generateEventId` (and hence every id of
an event emitted by `parseLogToTransferEvent`) begins with the chain tag
followed by an underscore, but `confirmationCount` is exactly
`currentTip − log.blockNumber`, which is negative whenever the log's block
is ahead of the cached tip; `confirmed` is the signed comparison against
the configured depth. -/
theorem event_id_prefix_and_confirmation_count (chainType : ChainType)
    (currentBlockNumber blockConfirmationCount blockTimestamp : Nat)
    (log : EvmLog) (e : BlockchainEvent)
    (h : parseLogToTransferEvent chainType currentBlockNumber
      blockConfirmationCount blockTimestamp log = some e) :
    (∃ rest, e.id = chainType.tag ++ "_" ++ rest) ∧
    e.confirmationCount =
      (currentBlockNumber : Int) - (log.blockNumber : Int) ∧
    e.confirmed = isEventConfirmed currentBlockNumber
      blockConfirmationCount log.blockNumber := by
  unfold parseLogToTransferEvent at h
  cases hd : decodeTransferLog log with
  | none => rw [hd] at h; exact absurd h (by simp)
  | some dec =>
    obtain ⟨fromAddr, toAddr, amount⟩ := dec
    rw [hd] at h
    simp only [Option.some.injEq] at h
    subst h
    exact ⟨generateEventId_chain_tag chainType log.transactionHash
      (some log.index), rfl, rfl⟩

/-- Witness for `event_id_prefix_and_confirmation_count` on a concrete
log (the one of `lateLog`, with the tip at 100). -/
theorem event_id_prefix_and_confirmation_count_witness :
    (∃ rest,
      (({ id := "ethereum_0xabc_0", chainType := .ethereum,
          eventType := .transfer, blockNumber := 101,
          transactionHash := "0xabc", timestamp := 1700000000000,
          confirmed := false, confirmationCount := -1,
          data := { fromAddr := some "0x1111111111111111111111111111111111111111",
                    toAddr := some "0x2222222222222222222222222222222222222222",
                    amount := some "1000000000000000000",
                    tokenAddress := some "0xtoken", gasUsed := some "0",
                    gasPrice := some "0" } } : BlockchainEvent)).id =
        ChainType.ethereum.tag ++ "_" ++ rest) := by
  have h := event_id_prefix_and_confirmation_count .ethereum 100 6 1700000000
    lateLog
    { id := "ethereum_0xabc_0", chainType := .ethereum,
      eventType := .transfer, blockNumber := 101,
      transactionHash := "0xabc", timestamp := 1700000000000,
      confirmed := false, confirmationCount := -1,
      data := { fromAddr := some "0x1111111111111111111111111111111111111111",
                toAddr := some "0x2222222222222222222222222222222222222222",
                amount := some "1000000000000000000",
                tokenAddress := some "0xtoken", gasUsed := some "0",
                gasPrice := some "0" } }
    (by decide)
  exact h.1

theorem mem_insertByPriorityDesc {f x : EventFilter} :
    ∀ {l : List EventFilter}, x ∈ insertByPriorityDesc f l → x = f ∨ x ∈ l := by
  intro l
  induction l with
  | nil => intro h; simpa [insertByPriorityDesc] using h
  | cons g gs ih =>
    intro h
    by_cases hlt : f.priority < g.priority
    · simp only [insertByPriorityDesc, if_pos hlt, List.mem_cons] at h
      rcases h with h | h
      · exact Or.inr (by simp [h])
      · rcases ih h with h' | h'
        · exact Or.inl h'
        · exact Or.inr (List.mem_cons_of_mem g h')
    · simp only [insertByPriorityDesc, if_neg hlt, List.mem_cons] at h
      rcases h with h | h | h
      · exact Or.inl h
      · exact Or.inr (by simp [h])
      · exact Or.inr (List.mem_cons_of_mem g h)

theorem pairwise_insertByPriorityDesc {f : EventFilter} :
    ∀ {l : List EventFilter},
    l.Pairwise (fun a b => b.priority ≤ a.priority) →
    (insertByPriorityDesc f l).Pairwise (fun a b => b.priority ≤ a.priority) := by
  intro l
  induction l with
  | nil => intro _; simp [insertByPriorityDesc]
  | cons g gs ih =>
    intro h
    rw [List.pairwise_cons] at h
    obtain ⟨hg, hgs⟩ := h
    by_cases hlt : f.priority < g.priority
    · rw [insertByPriorityDesc, if_pos hlt, List.pairwise_cons]
      refine ⟨?_, ih hgs⟩
      intro b hb
      rcases mem_insertByPriorityDesc hb with h' | h'
      · subst h'; exact le_of_lt hlt
      · exact hg b h'
    · rw [insertByPriorityDesc, if_neg hlt, List.pairwise_cons]
      push_neg at hlt
      refine ⟨?_, by rw [List.pairwise_cons]; exact ⟨hg, hgs⟩⟩
      intro b hb
      rcases List.mem_cons.mp hb with h' | h'
      · subst h'; exact hlt
      · exact le_trans (hg b h') hlt

/-- The filter chain really is in descending priority order. -/
theorem pairwise_sortByPriorityDesc :
    ∀ l : List EventFilter,
    (sortByPriorityDesc l).Pairwise (fun a b => b.priority ≤ a.priority) := by
  intro l
  induction l with
  | nil => simp [sortByPriorityDesc]
  | cons f fs ih => exact pairwise_insertByPriorityDesc ih

/-- If the filters before position `k` pass and the one at `k` does not,
the walk evaluates exactly the first `k + 1` filters and yields `false`. -/
theorem applyFiltersTrace_reject_at (e : BlockchainEvent)
    (fs : List EventFilter) :
    ∀ (k : Nat) (hk : k < fs.length),
    (∀ j, (hj : j < k) →
      (fs.get ⟨j, Nat.lt_trans hj hk⟩).apply e = FilterOutcome.pass) →
    ¬ ((fs.get ⟨k, hk⟩).apply e = FilterOutcome.pass) →
    applyFiltersTrace e fs =
      (false, (fs.take (k + 1)).map (fun f => f.id)) := by
  induction fs with
  | nil => intro k hk; simp at hk
  | cons f fs ih =>
    intro k hk hpass hrej
    cases k with
    | zero =>
      cases hap : f.apply e with
      | pass => exact absurd hap hrej
      | reject => simp [applyFiltersTrace, hap]
      | err => simp [applyFiltersTrace, hap]
    | succ k =>
      have h0 : f.apply e = .pass := hpass 0 (Nat.succ_pos k)
      have hk' : k < fs.length := Nat.lt_of_succ_lt_succ hk
      have ihh := ih k hk'
        (fun j hj => hpass (j + 1) (Nat.succ_lt_succ hj)) hrej
      simp [applyFiltersTrace, h0, ihh]

/-- C3: when the enabled filters, walked in descending priority order,
first fail (reject or throw) at position `k`, `execute` returns none,
evaluates exactly the filters up to `k`, and runs no enricher, processor
or notifier. -/
theorem execute_filter_short_circuit (p : Pipeline) (e : BlockchainEvent)
    (correlationId : String) (startTime now : Nat) (k : Nat)
    (hk : k < (activeFilters p).length)
    (hpass : ∀ j, (hj : j < k) →
      ((activeFilters p).get ⟨j, Nat.lt_trans hj hk⟩).apply e =
        FilterOutcome.pass)
    (hrej : ¬ (((activeFilters p).get ⟨k, hk⟩).apply e =
      FilterOutcome.pass)) :
    (execute p e correlationId startTime now).result = none ∧
    (execute p e correlationId startTime now).filtersEvaluated =
      ((activeFilters p).take (k + 1)).map (fun f => f.id) ∧
    (execute p e correlationId startTime now).enrichersRun = [] ∧
    (execute p e correlationId startTime now).processorsTried = [] ∧
    (execute p e correlationId startTime now).notifiersRun = [] ∧
    (activeFilters p).Pairwise (fun a b => b.priority ≤ a.priority) := by
  have h := applyFiltersTrace_reject_at e (activeFilters p) k hk hpass hrej
  refine ⟨?_, ?_, ?_, ?_, ?_, pairwise_sortByPriorityDesc _⟩ <;>
    simp [execute, h]

/-- Witness for `execute_filter_short_circuit`: the priority-10 filter is
sorted ahead of the priority-5 one, rejects, and only it is evaluated. -/
theorem execute_filter_short_circuit_witness :
    (execute cexFilterPipeline sampleEvent "cid" 0 0).result = none ∧
    (execute cexFilterPipeline sampleEvent "cid" 0 0).filtersEvaluated =
      ["high"] ∧
    (execute cexFilterPipeline sampleEvent "cid" 0 0).notifiersRun = [] := by
  have h := execute_filter_short_circuit cexFilterPipeline sampleEvent
    "cid" 0 0 0
    (by show 0 < 2; decide)
    (fun j hj => absurd hj (Nat.not_lt_zero j))
    (by decide)
  refine ⟨h.1, ?_, h.2.2.2.2.1⟩
  rw [h.2.1]
  rfl

/-- C4 counterexample: registering a second filter under the already-used
id `"addr"` raises nothing — `addFilter` silently overwrites the existing
entry (the spec-modelled checked registration would have erred). -/
theorem add_duplicate_id_counterexample :
    (addFilter dupFilterPipeline dupFilterSecond).filters =
      [dupFilterSecond] ∧
    specAddComponentChecked (fun f => f.id) dupFilterPipeline.filters
      dupFilterSecond = none := by
  exact ⟨rfl, rfl⟩

/-- C4 amended: `addFilter` (and the `setById` shared by the four
registration methods) never errors; a component whose id equals an
existing one replaces that entry in place, and the id list — hence the
component count — is unchanged. -/
theorem add_duplicate_replaces (p : Pipeline) (f : EventFilter)
    (h : p.filters.any (fun g => g.id == f.id) = true) :
    (addFilter p f).filters =
      p.filters.map (fun g => if g.id == f.id then f else g) ∧
    (addFilter p f).filters.map (fun g => g.id) =
      p.filters.map (fun g => g.id) := by
  have hset : setById (fun g => g.id) p.filters f =
      p.filters.map (fun g => if g.id == f.id then f else g) := by
    unfold setById
    rw [if_pos h]
  refine ⟨hset, ?_⟩
  show (setById (fun g => g.id) p.filters f).map (fun g => g.id) = _
  rw [hset, List.map_map]
  apply List.map_congr_left
  intro g _
  by_cases hg : g.id == f.id
  · simp only [Function.comp, hg, if_pos]
    exact (eq_of_beq hg).symm
  · simp only [Function.comp, hg, if_neg]
    simp [hg]

/-- Witness for `add_duplicate_replaces` at the concrete duplicate-id
pipeline. -/
theorem add_duplicate_replaces_witness :
    (addFilter dupFilterPipeline dupFilterSecond).filters =
      dupFilterPipeline.filters.map
        (fun g => if g.id == dupFilterSecond.id then dupFilterSecond
          else g) ∧
    (addFilter dupFilterPipeline dupFilterSecond).filters.map
        (fun g => g.id) =
      dupFilterPipeline.filters.map (fun g => g.id) :=
  add_duplicate_replaces dupFilterPipeline dupFilterSecond (by decide)

/-- C5 counterexample: the failing notifier really makes 3 attempts (its
whole retry budget) before giving up, yet the entry the pipeline appends
records `retryCount = 0`, not the budget; the second notifier still
succeeds independently. -/
theorem notification_retry_count_counterexample :
    (sendNotifications cexNotifierPipeline sampleProcessedEvent
        99).notifications =
      [ { channel := "webhook", success := false, timestamp := 99,
          error := some
            "Webhook notification failed after 3 attempts: sink-down",
          retryCount := 0 },
        { channel := "redis", success := true, timestamp := 99,
          error := none, retryCount := 0 } ] ∧
    (notifierRetryOperation 3 1000 (fun _ => Except.error "sink-down")
        "Webhook notification").2.1 = 3 ∧
    ((0 : Nat) == 3) = false := by
  refine ⟨?_, ?_, ?_⟩ <;> decide

/-- C5 amended: when an enabled notifier's `notify` escapes with an error
(its retry budget exhausted), the pipeline appends a
`{channel, success: false, error, retryCount: 0}` entry — `retryCount` is
the literal 0, not the budget — and every other enabled notifier still
gets its own entry, successful ones recorded as successes. -/
theorem notification_failure_isolated (p : Pipeline)
    (pe : ProcessedEvent) (now : Nat) (n : EventNotifier) (msg : String)
    (hn : n ∈ activeNotifiers p) (hfail : n.notify pe = Except.error msg) :
    ({ channel := n.id, success := false, timestamp := now,
        error := some msg, retryCount := 0 } : NotificationResult) ∈
      (sendNotifications p pe now).notifications ∧
    (∀ n2, n2 ∈ activeNotifiers p → n2.notify pe = Except.ok () →
      ({ channel := n2.id, success := true, timestamp := now,
          error := none, retryCount := 0 } : NotificationResult) ∈
        (sendNotifications p pe now).notifications) := by
  constructor
  · apply List.mem_append_right
    apply List.mem_map.mpr
    exact ⟨n, hn, by simp [notificationEntry, hfail]⟩
  · intro n2 hn2 hok
    apply List.mem_append_right
    apply List.mem_map.mpr
    exact ⟨n2, hn2, by simp [notificationEntry, hok]⟩

/-- Witness for `notification_failure_isolated` at the two concrete
notifiers: the exhausted webhook's failure entry and the redis success
entry both appear. -/
theorem notification_failure_isolated_witness :
    ({ channel := "webhook", success := false, timestamp := 99,
        error := some
          "Webhook notification failed after 3 attempts: sink-down",
        retryCount := 0 } : NotificationResult) ∈
      (sendNotifications cexNotifierPipeline sampleProcessedEvent
        99).notifications ∧
    ({ channel := "redis", success := true, timestamp := 99,
        error := none, retryCount := 0 } : NotificationResult) ∈
      (sendNotifications cexNotifierPipeline sampleProcessedEvent
        99).notifications := by
  have h := notification_failure_isolated cexNotifierPipeline
    sampleProcessedEvent 99 cexNotifierFail
    "Webhook notification failed after 3 attempts: sink-down"
    (by show cexNotifierFail ∈ [cexNotifierFail, cexNotifierOk]; simp)
    rfl
  exact ⟨h.1, h.2 cexNotifierOk
    (by show cexNotifierOk ∈ [cexNotifierFail, cexNotifierOk]; simp) rfl⟩

/-- Loop invariant of `IChainAdapter.retry`: starting at `attempt` with
`rem` iterations left (`attempt + rem = max + 1`), the loop makes at most
`rem` further attempts (at least one if any are left), sleeps exactly
`min(1000·2^a, 30000)` between consecutive attempts `a` and `a + 1`, and
a final failure carries the context string at the head of its message. -/
theorem adapterRetryGo_spec (max : Nat) (op : Nat → Except String α)
    (ctx : String) :
    ∀ (rem attempt : Nat) (lastE : Option String),
    attempt + rem = max + 1 →
    (adapterRetryGo max op ctx attempt rem lastE).2.1 ≤ rem ∧
    (0 < rem → 0 < (adapterRetryGo max op ctx attempt rem lastE).2.1) ∧
    (adapterRetryGo max op ctx attempt rem lastE).2.2 =
      (List.range' attempt
        ((adapterRetryGo max op ctx attempt rem lastE).2.1 - 1)).map
        (fun a => min (1000 * 2 ^ a) 30000) ∧
    ∀ msg,
      (adapterRetryGo max op ctx attempt rem lastE).1 = Except.error msg →
      (adapterRetryGo max op ctx attempt rem lastE).2.1 = rem ∧
      ∃ rest, msg =
        ctx ++ (" failed after " ++ toString max ++ " attempts: " ++ rest) := by
  intro rem
  induction rem with
  | zero =>
    intro attempt lastE _
    refine ⟨le_refl _, by simp, by simp [adapterRetryGo], ?_⟩
    intro msg hmsg
    simp only [adapterRetryGo] at hmsg
    injection hmsg with hmsg
    refine ⟨rfl, lastE.getD "undefined", ?_⟩
    rw [← hmsg]
    simp [string_append_assoc]
  | succ rem ih =>
    intro attempt lastE hinv
    cases hop : op attempt with
    | ok v =>
      refine ⟨?_, ?_, ?_, ?_⟩
      · simp [adapterRetryGo, hop]
      · simp [adapterRetryGo, hop]
      · simp [adapterRetryGo, hop]
      · intro msg hmsg
        simp [adapterRetryGo, hop] at hmsg
    | error msg0 =>
      have hinv' : (attempt + 1) + rem = max + 1 := by omega
      have IH := ih (attempt + 1) (some msg0) hinv'
      by_cases hlt : attempt < max
      · have hrem : 0 < rem := by omega
        have hpos : 0 < (adapterRetryGo max op ctx (attempt + 1) rem
          (some msg0)).2.1 := IH.2.1 hrem
        refine ⟨?_, ?_, ?_, ?_⟩
        · simp only [adapterRetryGo, hop, if_pos hlt]
          exact Nat.succ_le_succ IH.1
        · intro _
          simp [adapterRetryGo, hop, if_pos hlt]
        · obtain ⟨k, hk⟩ := Nat.exists_eq_succ_of_ne_zero
            (Nat.pos_iff_ne_zero.mp hpos)
          have h3 := IH.2.2.1
          rw [hk] at h3
          have hkk : k + 1 - 1 = k := rfl
          rw [hkk] at h3
          simp only [adapterRetryGo, hop, if_pos hlt, Nat.add_sub_cancel,
            hk, List.range'_succ, List.map_cons]
          exact congrArg₂ List.cons rfl h3
        · intro msg hmsg
          simp only [adapterRetryGo, hop, if_pos hlt] at hmsg
          obtain ⟨hcount, hrest⟩ := IH.2.2.2 msg hmsg
          exact ⟨by simp only [adapterRetryGo, hop, if_pos hlt, hcount],
            hrest⟩
      · have hattempt : attempt = max := by omega
        have hrem0 : rem = 0 := by omega
        subst hrem0
        refine ⟨?_, ?_, ?_, ?_⟩
        · simp only [adapterRetryGo, hop, if_neg hlt]
          exact Nat.succ_le_succ IH.1
        · intro _
          simp [adapterRetryGo, hop, if_neg hlt]
        · simp only [adapterRetryGo, hop, if_neg hlt, Nat.add_sub_cancel]
          rfl
        · intro msg hmsg
          simp only [adapterRetryGo, hop, if_neg hlt] at hmsg
          obtain ⟨hcount, hrest⟩ := IH.2.2.2 msg hmsg
          exact ⟨by simp only [adapterRetryGo, hop, if_neg hlt, hcount],
            hrest⟩

/-- C6 counterexample: with `max_retry_attempts = 2` and an operation that
always fails, the wrapper makes 3 attempts — one more than the claimed
bound — sleeping 1000 ms then 2000 ms, and raises the context-tagged
error. -/
theorem adapter_retry_counterexample :
    (adapterRetry 2 (fun _ => (Except.error "boom" : Except String Unit))
        "getCurrentBlockNumber").2.1 = 3 ∧
    ((3 : Nat) ≤ 2) = False ∧
    (adapterRetry 2 (fun _ => (Except.error "boom" : Except String Unit))
        "getCurrentBlockNumber").2.2 = [1000, 2000] ∧
    (adapterRetry 2 (fun _ => (Except.error "boom" : Except String Unit))
        "getCurrentBlockNumber").1 =
      Except.error
        "getCurrentBlockNumber failed after 2 attempts: boom" := by
  refine ⟨by decide, by simp, by decide, rfl⟩

/-- C6 amended: the wrapper attempts the operation at most
`max_retry_attempts + 1` times (one initial attempt plus up to
`max_retry_attempts` retries); the delay slept between 0-based attempts
`a` and `a + 1` is `min(1000·2^a, 30000)` ms; and on final failure it
raises an error whose message starts with the supplied context string. -/
theorem adapter_retry_bounds (max : Nat) (op : Nat → Except String α)
    (ctx : String) :
    (adapterRetry max op ctx).2.1 ≤ max + 1 ∧
    (adapterRetry max op ctx).2.2 =
      (List.range ((adapterRetry max op ctx).2.1 - 1)).map
        (fun a => min (1000 * 2 ^ a) 30000) ∧
    ∀ msg, (adapterRetry max op ctx).1 = Except.error msg →
      (adapterRetry max op ctx).2.1 = max + 1 ∧
      ∃ rest, msg =
        ctx ++ (" failed after " ++ toString max ++ " attempts: " ++ rest) := by
  have h := adapterRetryGo_spec max op ctx (max + 1) 0 none (by omega)
  exact ⟨h.1, by rw [List.range_eq_range']; exact h.2.2.1, h.2.2.2⟩

/-- Witness for `adapter_retry_bounds` at `max = 2` and an always-failing
operation: the attempt count is 3 and hits the `max + 1` bound. -/
theorem adapter_retry_bounds_witness :
    (adapterRetry 2 (fun _ => (Except.error "boom" : Except String Unit))
        "rpc").2.1 ≤ 3 ∧
    (adapterRetry 2 (fun _ => (Except.error "boom" : Except String Unit))
        "rpc").2.1 = 3 := by
  have h := adapter_retry_bounds 2
    (fun _ => (Except.error "boom" : Except String Unit)) "rpc"
  exact ⟨h.1, (h.2.2 "rpc failed after 2 attempts: boom" rfl).1⟩

/-- C7: the sweep's reconnection branch is exactly the claimed staleness
condition — but every status the adapters hand it reports
`lastHeartbeat = Date.now()`, so at sweep time the computed staleness is
zero and no reconnection is ever scheduled, no matter how long ago the
heartbeat timer actually stopped.  The claimed reachability fails. -/
theorem health_sweep_reconnect_unreachable (cfg : ChainManagerConfig)
    (now : Nat) (adapters : List (ChainType × Bool × Nat)) :
    performHealthCheck cfg now
      (adapters.map (fun a =>
        (a.1, evmGetConnectionStatus a.2.1 a.2.2 now))) = [] ∧
    (∀ (c : ChainType) (st : ConnectionStatus),
      performHealthCheck cfg now [(c, st)] =
        (if ((now : Int) - (st.lastHeartbeat : Int) >
              2 * (cfg.healthCheckInterval : Int)) ∧
            cfg.enableAutoReconnect = true
         then [(c, cfg.reconnectDelay)] else [])) := by
  constructor
  · unfold performHealthCheck
    rw [List.filterMap_map]
    apply List.filterMap_eq_nil_iff.mpr
    intro a _
    have hle : ¬ (((now : Int) -
        ((evmGetConnectionStatus a.2.1 a.2.2 now).lastHeartbeat : Int) >
          2 * (cfg.healthCheckInterval : Int)) ∧
        cfg.enableAutoReconnect = true) := by
      intro hcontra
      have : (now : Int) - (now : Int) > 2 * (cfg.healthCheckInterval : Int) :=
        hcontra.1
      omega
    simp only [Function.comp]
    rw [if_neg hle]
  · intro c st
    by_cases hc : ((now : Int) - (st.lastHeartbeat : Int) >
        2 * (cfg.healthCheckInterval : Int)) ∧ cfg.enableAutoReconnect = true
    · simp [performHealthCheck, hc]
    · simp only [performHealthCheck, List.filterMap_cons]
      rw [if_neg hc, if_neg hc]
      rfl

theorem hasSubstrAux_iff_infix (needle : List Char) :
    ∀ h : List Char, hasSubstrAux needle h = true ↔ needle <:+: h := by
  intro h
  induction h with
  | nil =>
    simp [hasSubstrAux, List.isEmpty_iff]
  | cons c rest ih =>
    simp only [hasSubstrAux, Bool.or_eq_true, List.isPrefixOf_iff_prefix,
      ih, List.infix_cons_iff]

/-- Containment is transitive through a contained pattern. -/
theorem strIncludes_trans {t p q : String}
    (hpq : strIncludes p q = true) (htp : strIncludes t p = true) :
    strIncludes t q = true := by
  rw [strIncludes, hasSubstrAux_iff_infix] at hpq htp ⊢
  exact hpq.trans htp

/-- C9 counterexample: a Move type containing `PayEvent` (but none of the
claimed transfer triggers) is classified `transfer` by the adapter yet
dropped by the claimed cascade; and the repository's older classifier
variant maps `0x2::coin::MintEvent` to `transfer`, not `token_mint`, and
never drops unknown types. -/
theorem sui_classifier_counterexample :
    determineSuiEventType "0x1::market::PayEvent" = some .transfer ∧
    claimSuiClassify "0x1::market::PayEvent" = none ∧
    determineSuiEventTypeLegacy "0x2::coin::MintEvent" = some .transfer ∧
    claimSuiClassify "0x2::coin::MintEvent" = some .token_mint ∧
    determineSuiEventTypeLegacy "0x1::foo::Unknown" = some .transfer ∧
    claimSuiClassify "0x1::foo::Unknown" = none := by
  refine ⟨?_, ?_, ?_, ?_, ?_, ?_⟩ <;> decide

/-- C9 amended: the polling Sui adapter's classifier is exactly the
claimed cascade with `PayEvent` added to the transfer branch (the
`::coin::MintEvent`/`MintEvent` and `::coin::BurnEvent`/`BurnEvent`
triggers are absorbed by the `Mint`/`Burn` substring checks). -/
theorem determineSuiEventType_eq_amended (t : String) :
    determineSuiEventType t = amendedSuiClassify t := by
  have hMint1 : strIncludes "::coin::MintEvent" "Mint" = true := by decide
  have hMint2 : strIncludes "MintEvent" "Mint" = true := by decide
  have hBurn1 : strIncludes "::coin::BurnEvent" "Burn" = true := by decide
  have hBurn2 : strIncludes "BurnEvent" "Burn" = true := by decide
  unfold determineSuiEventType amendedSuiClassify
  by_cases hM : strIncludes t "Mint" = true
  · simp [hM]
  · have hM1 : strIncludes t "::coin::MintEvent" = false := by
      rcases Bool.eq_false_or_eq_true (strIncludes t "::coin::MintEvent")
        with h | h
      · exact absurd (strIncludes_trans hMint1 h) hM
      · exact h
    have hM2 : strIncludes t "MintEvent" = false := by
      rcases Bool.eq_false_or_eq_true (strIncludes t "MintEvent") with h | h
      · exact absurd (strIncludes_trans hMint2 h) hM
      · exact h
    by_cases hB : strIncludes t "Burn" = true
    · simp [hM, hM1, hM2, hB]
    · have hB1 : strIncludes t "::coin::BurnEvent" = false := by
        rcases Bool.eq_false_or_eq_true (strIncludes t "::coin::BurnEvent")
          with h | h
        · exact absurd (strIncludes_trans hBurn1 h) hB
        · exact h
      have hB2 : strIncludes t "BurnEvent" = false := by
        rcases Bool.eq_false_or_eq_true (strIncludes t "BurnEvent")
          with h | h
        · exact absurd (strIncludes_trans hBurn2 h) hB
        · exact h
      simp [hM, hM1, hM2, hB, hB1, hB2]

/-- C10: every counted outcome increments `totalEvents` and exactly one of
`processedEvents`/`failedEvents`, a filtered event increments none of the
three, and therefore after any outcome sequence the reported counters
satisfy `totalEvents = processedEvents + failedEvents`. -/
theorem listener_counter_invariant :
    (∀ s : ListenerStats,
      (stepStats s .processed).totalEvents = s.totalEvents + 1 ∧
      (stepStats s .processed).processedEvents = s.processedEvents + 1 ∧
      (stepStats s .processed).failedEvents = s.failedEvents ∧
      (stepStats s .failed).totalEvents = s.totalEvents + 1 ∧
      (stepStats s .failed).failedEvents = s.failedEvents + 1 ∧
      (stepStats s .failed).processedEvents = s.processedEvents ∧
      stepStats s .filtered = s) ∧
    (∀ (p : Pipeline) (cid : String) (t0 t1 : Nat) (s : ListenerStats)
      (e : BlockchainEvent),
      (execute p e cid t0 t1).result = none →
      managerHandleEvent p cid t0 t1 s e = s) ∧
    (∀ outcomes : List PipelineOutcome,
      (getStatsCounters (outcomes.foldl stepStats initialStats)).1 =
        (getStatsCounters (outcomes.foldl stepStats initialStats)).2.1 +
        (getStatsCounters (outcomes.foldl stepStats initialStats)).2.2) := by
  refine ⟨?_, ?_, ?_⟩
  · intro s
    exact ⟨rfl, rfl, rfl, rfl, rfl, rfl, rfl⟩
  · intro p cid t0 t1 s e hnone
    unfold managerHandleEvent
    rw [hnone]
  · intro outcomes
    have key : ∀ (s : ListenerStats),
        s.totalEvents = s.processedEvents + s.failedEvents →
        ∀ os : List PipelineOutcome,
        (os.foldl stepStats s).totalEvents =
          (os.foldl stepStats s).processedEvents +
          (os.foldl stepStats s).failedEvents := by
      intro s hs os
      induction os generalizing s with
      | nil => exact hs
      | cons o os ih =>
        cases o with
        | processed => exact ih _ (by simp [stepStats, hs]; omega)
        | failed => exact ih _ (by simp [stepStats, hs]; omega)
        | filtered => exact ih _ hs
    exact key initialStats rfl outcomes

/-- Witness for `listener_counter_invariant`'s hypothesis-bearing middle
conjunct: at the rejecting concrete pipeline, the counters are untouched. -/
theorem listener_counter_invariant_witness :
    managerHandleEvent cexFilterPipeline "cid" 0 0
      { totalEvents := 5, processedEvents := 3, failedEvents := 2 }
      sampleEvent =
    { totalEvents := 5, processedEvents := 3, failedEvents := 2 } := by
  have h := listener_counter_invariant
  exact h.2.1 cexFilterPipeline "cid" 0 0
    { totalEvents := 5, processedEvents := 3, failedEvents := 2 }
    sampleEvent (by decide)

/-- C8 counterexample: `tronBadChecksumAddr` is a 34-character `'T'`
Base58 string whose checksum is invalid, yet `validateAddress` accepts it
(it only checks the decoded length, never the checksum); moreover a bare
40-hex string with no `0x` prefix is also accepted. -/
theorem tron_validate_counterexample :
    tronValidateAddress tronBadChecksumAddr = true ∧
    tronBase58Form tronBadChecksumAddr = true ∧
    (tronBadChecksumAddr.toList.length == 34) = true ∧
    tronChecksumValid tronBadChecksumAddr = false ∧
    tronHexForm tronBadChecksumAddr = false ∧
    tronValidateAddress "aaaaaaaaaaaaaaaaaaaaaaaaaaaaaaaaaaaaaaaa" = true := by
  refine ⟨?_, ?_, ?_, ?_, ?_, ?_⟩ <;> decide

theorem tronBase58Form_length {s : String}
    (hb : tronBase58Form s = true) : s.toList.length = 34 := by
  unfold tronBase58Form at hb
  simp only [Bool.and_eq_true, beq_iff_eq] at hb
  exact hb.1.1

theorem tronHexForm_length {s : String}
    (hh : tronHexForm s = true) :
    s.toList.length = 42 ∨ s.toList.length = 40 := by
  unfold tronHexForm at hh
  simp only [Bool.or_eq_true, Bool.and_eq_true, beq_iff_eq] at hh
  rcases hh with h | h
  · exact Or.inl h.1.1
  · exact Or.inr h.1

theorem tronForms_disjoint {s : String}
    (hb : tronBase58Form s = true) : tronHexForm s = false := by
  rcases Bool.eq_false_or_eq_true (tronHexForm s) with h | h
  · rcases tronHexForm_length h with h42 | h40 <;>
      · have h34 := tronBase58Form_length hb
        omega
  · exact h

/-- C8 amended: `validateAddress` accepts exactly the strings that match
`/^(0x)?[a-fA-F0-9]{40}$/` (the `0x` prefix being optional) or match
`/^T[A-HJ-NP-Za-km-z1-9]{33}$/` with a 25-byte Base58 decoding; the
4-byte checksum is never computed, so checksum-invalid `T…` strings of
the right shape pass. -/
theorem tronValidateAddress_characterization (s : String) :
    tronValidateAddress s = true ↔
      (tronHexForm s = true ∨
        (tronBase58Form s = true ∧ b58DecodedLen s = 25)) := by
  unfold tronValidateAddress
  by_cases hb : tronBase58Form s = true
  · have hh := tronForms_disjoint hb
    have hne : s.toList.isEmpty = false := by
      have h34 := tronBase58Form_length hb
      cases hl : s.toList with
      | nil => rw [hl] at h34; simp at h34
      | cons c rest => rfl
    rw [hne]
    simp [hb, hh, beq_iff_eq]
  · have hb' : tronBase58Form s = false :=
      (Bool.eq_false_or_eq_true _).resolve_left hb
    cases hhex : tronHexForm s with
    | false =>
      by_cases hne : s.toList.isEmpty = true
      · simp [hne, hb', hhex]
      · simp [(Bool.eq_false_or_eq_true _).resolve_left hne, hb', hhex]
    | true =>
      have hne : s.toList.isEmpty = false := by
        rcases tronHexForm_length hhex with h | h <;>
          · cases hl : s.toList with
            | nil => rw [hl] at h; simp at h
            | cons c rest => rfl
      rw [hne]
      simp [hb', hhex]

/-- Witness for `tronValidateAddress_characterization` at the concrete
bad-checksum address: accepted because it is in `T…` Base58 form with a
25-byte decoding. -/
theorem tronValidateAddress_characterization_witness :
    tronValidateAddress tronBadChecksumAddr = true :=
  (tronValidateAddress_characterization tronBadChecksumAddr).mpr
    (Or.inr ⟨by decide, by decide⟩)

end ChainsListener

